import Mathlib

/-!
Verification of the Client Synchronizer of the notification subsystem
(`frontend/src/context/NotificationContext.js`).

The synchronizer's local state is the React component state of
`NotificationProvider`: the `notifications` list, the `unreadCount`
counter (a JS number, modelled as `Int`), and the connection flags
`socket` / `isConnected` (modelled as the booleans `hasSocket` /
`isConnected`).  Each event handler of the source becomes a pure state
transformer; the outcome of an asynchronous pull request becomes an
explicit parameter describing the server's response.
-/

namespace NotificationSync

/-- A notification record as held in the client's local list.  The
synchronizer only ever inspects `id` and `is_read`; the remaining
fields (recipient, sender, type, title, body, metadata, timestamp) are
carried opaquely by the JS spread `{...notification}` and are collapsed
into `payload`. -/
structure Notification where
  id : Nat
  is_read : Bool
  payload : String
  deriving Repr, DecidableEq

/-- Local state of `NotificationProvider`: the four `useState` cells
`notifications`, `unreadCount`, `socket` (presence), `isConnected`. -/
structure SyncState where
  notifications : List Notification
  unreadCount : Int
  hasSocket : Bool
  isConnected : Bool
  deriving Repr, DecidableEq

/-- Number of entries of the local list whose read flag is false. -/
def countUnread (l : List Notification) : Nat :=
  l.countP (fun n => !n.is_read)

/-- Outcome of a pull-transport (REST) request, as observed by the
`fetch` call sites: `ok` (2xx), `httpError` (`!response.ok`, which the
source turns into a thrown `Error`), or `networkError` (the `fetch`
promise itself rejects). -/
inductive PullResult where
  | ok
  | httpError
  | networkError
  deriving Repr, DecidableEq

/-- Body of a successful `GET /notifications/` response:
`data.items` and `data.unread_count`. -/
structure PullData where
  items : List Notification
  unread_count : Int
  deriving Repr, DecidableEq

/-- A message the client sends over the live channel:
`socket.send(JSON.stringify({type: 'mark_read', notification_id}))`. -/
inductive OutMsg where
  | markRead (notification_id : Nat)
  deriving Repr, DecidableEq

/-- An inbound channel message after `JSON.parse` succeeded, decoded by
the `data.type` discriminator: `notification` (carrying `data.data`),
`notification_updated` (carrying `data.notification_id`,
`data.is_read`), or any other type tag (`other`), which the source's
`if`/`else if` chain leaves unhandled. -/
inductive InMsg where
  | notification (n : Notification)
  | notificationUpdated (notification_id : Nat) (is_read : Bool)
  | other (tag : String)
  deriving Repr, DecidableEq

/-- `handleNewNotification`: prepend to the local list, increment the
local counter. -/
def handleNewNotification (n : Notification) (s : SyncState) : SyncState :=
  { s with notifications := n :: s.notifications
           unreadCount := s.unreadCount + 1 }

/-- The `setNotifications` updater shared by `handleNotificationUpdate`
and the REST branch of `markAsRead`: map over the list, replacing the
read flag of every entry whose `id` matches. -/
def patchRead (notification_id : Nat) (is_read : Bool)
    (l : List Notification) : List Notification :=
  l.map (fun n =>
    if n.id = notification_id then { n with is_read := is_read } else n)

/-- `handleNotificationUpdate`: patch the matching entry's read flag in
place; then, whenever the message's `is_read` is true, decrement the
counter clamped at zero (`Math.max(0, prevCount - 1)`).  The source
tests only `if (is_read)` — not whether any entry actually transitioned. -/
def handleNotificationUpdate (notification_id : Nat) (is_read : Bool)
    (s : SyncState) : SyncState :=
  let s' := { s with
    notifications := patchRead notification_id is_read s.notifications }
  if is_read then { s' with unreadCount := max 0 (s'.unreadCount - 1) }
  else s'

/-- `fetchNotifications`: no-op without a token; on a successful pull
replace the list with `data.items` and the counter with
`data.unread_count`; on `!response.ok` or a network error the `catch`
logs and leaves the state untouched.  `resp = none` stands for either
failure. -/
def fetchNotifications (hasToken : Bool) (resp : Option PullData)
    (s : SyncState) : SyncState :=
  if !hasToken then s
  else
    match resp with
    | some d => { s with notifications := d.items
                         unreadCount := d.unread_count }
    | none => s

/-- The `onopen` handler of `connectWebSocket`: set `isConnected`,
store the socket, then immediately call `fetchNotifications`. -/
def onOpen (hasToken : Bool) (resp : Option PullData)
    (s : SyncState) : SyncState :=
  fetchNotifications hasToken resp
    { s with isConnected := true, hasSocket := true }

/-- What a call to `markAsRead` / `markAllAsRead` produces: the new
local state, the message sent over the live channel (if any), whether
the `catch` block logged an error, and whether an error propagated to
the caller (the source's `catch` swallows every failure, so this is
false on every path). -/
structure CallOutcome where
  state : SyncState
  sent : Option OutMsg
  logged : Bool
  surfaced : Bool
  deriving Repr, DecidableEq

/-- `markAsRead(notificationId)`: return without effect when no token;
when the socket exists and is connected, send a `mark_read` message
over the channel and return with no local change; otherwise issue the
REST `PUT`, and only on success patch the local entry and decrement the
counter clamped at zero.  Failures are caught and logged, never
rethrown. -/
def markAsRead (hasToken : Bool) (notificationId : Nat)
    (resp : PullResult) (s : SyncState) : CallOutcome :=
  if !hasToken then ⟨s, none, false, false⟩
  else if s.hasSocket && s.isConnected then
    ⟨s, some (OutMsg.markRead notificationId), false, false⟩
  else
    match resp with
    | PullResult.ok =>
        ⟨{ s with
            notifications := patchRead notificationId true s.notifications
            unreadCount := max 0 (s.unreadCount - 1) },
          none, false, false⟩
    | PullResult.httpError => ⟨s, none, true, false⟩
    | PullResult.networkError => ⟨s, none, true, false⟩

/-- `markAllAsRead()`: return without effect when no token; on a
successful REST `PUT` set every local entry's read flag and zero the
counter; on failure the `catch` logs and leaves the state untouched. -/
def markAllAsRead (hasToken : Bool) (resp : PullResult)
    (s : SyncState) : CallOutcome :=
  if !hasToken then ⟨s, none, false, false⟩
  else
    match resp with
    | PullResult.ok =>
        ⟨{ s with
            notifications := s.notifications.map
              (fun n => { n with is_read := true })
            unreadCount := 0 },
          none, false, false⟩
    | PullResult.httpError => ⟨s, none, true, false⟩
    | PullResult.networkError => ⟨s, none, true, false⟩

/-- The `onmessage` handler: `ev = none` models an `event.data` on
which `JSON.parse` throws — the `catch` logs (`logged = true`) and the
state is untouched; a decoded message is dispatched on its type tag,
and a tag that is neither `notification` nor `notification_updated`
falls through the `if`/`else if` chain with no effect and no log. -/
def onMessage (ev : Option InMsg) (s : SyncState) : SyncState × Bool :=
  match ev with
  | none => (s, true)
  | some (InMsg.notification n) => (handleNewNotification n s, false)
  | some (InMsg.notificationUpdated id r) =>
      (handleNotificationUpdate id r s, false)
  | some (InMsg.other _) => (s, false)

/-! ### Session-level model: reconnect timer and teardown

`connectWebSocket` is a closure created in the component render scope,
so the `currentUser` tested inside its `onclose` → `setTimeout`
callback is the value captured when that closure was created, not the
live one.  A scheduled timer is therefore modelled by the `currentUser`
value its closure captured.  The source never stores the handle
returned by `setTimeout` and the cleanup effect (which runs on session
teardown) only closes the socket — it contains no `clearTimeout` — so
teardown leaves `pendingTimers` untouched. -/

/-- Session-level state: the synchronizer state, the live
`currentUser` of the auth context, whether `localStorage` holds a
token, the scheduled (never cancelled) reconnect timers with the
`currentUser` each one's closure captured, and how many times
`connectWebSocket` has constructed a `new WebSocket`. -/
structure AppState where
  sync : SyncState
  currentUser : Option String
  tokenPresent : Bool
  pendingTimers : List (Option String)
  wsConstructed : Nat
  deriving Repr, DecidableEq

/-- `connectWebSocket`: return early when `localStorage` has no token,
otherwise construct a `new WebSocket` (counted by `wsConstructed`). -/
def connectWebSocket (a : AppState) : AppState :=
  if a.tokenPresent then { a with wsConstructed := a.wsConstructed + 1 }
  else a

/-- The `onclose` handler: clear the connection flags and schedule a
reconnect via `setTimeout`, whose callback closes over the
`capturedUser` of the render scope that created this handler.  The
handle is discarded, so the timer joins `pendingTimers` permanently. -/
def onClose (capturedUser : Option String) (a : AppState) : AppState :=
  { a with
      sync := { a.sync with isConnected := false, hasSocket := false }
      pendingTimers := a.pendingTimers ++ [capturedUser] }

/-- Session teardown (logout or component unmount): the cleanup effect
closes the socket and clears the connection flags; `currentUser`
becomes absent.  No `clearTimeout` is issued and the cleanup does not
touch `localStorage`, so `pendingTimers` and `tokenPresent` are
unchanged. -/
def sessionEnd (a : AppState) : AppState :=
  { a with
      currentUser := none
      sync := { a.sync with isConnected := false, hasSocket := false } }

/-- The earliest pending `setTimeout` fires: its callback tests the
captured `currentUser` of its closure and, if that captured value was
present, calls `connectWebSocket` again. -/
def fireTimer (a : AppState) : AppState :=
  match a.pendingTimers with
  | [] => a
  | captured :: rest =>
      let a' := { a with pendingTimers := rest }
      match captured with
      | some _ => connectWebSocket a'
      | none => a'

/-! ### Operation traces over the synchronizer state -/

/-- One synchronizer operation that mutates the local state, with the
environment's contribution (pushed message contents, pull responses)
as data. -/
inductive SyncOp where
  | push (n : Notification)
  | update (notification_id : Nat) (is_read : Bool)
  | pullMarkRead (hasToken : Bool) (notification_id : Nat) (resp : PullResult)
  | pullMarkAll (hasToken : Bool) (resp : PullResult)
  | resync (hasToken : Bool) (resp : Option PullData)
  deriving Repr, DecidableEq

/-- Apply one operation to the local state. -/
def applyOp (op : SyncOp) (s : SyncState) : SyncState :=
  match op with
  | SyncOp.push n => handleNewNotification n s
  | SyncOp.update id r => handleNotificationUpdate id r s
  | SyncOp.pullMarkRead tok id resp => (markAsRead tok id resp s).state
  | SyncOp.pullMarkAll tok resp => (markAllAsRead tok resp s).state
  | SyncOp.resync tok resp => fetchNotifications tok resp s

/-- Run a sequence of operations from a starting state. -/
def runOps (s : SyncState) : List SyncOp → SyncState
  | [] => s
  | op :: ops => runOps (applyOp op s) ops

/-- The counter invariant: the local unread counter equals the number
of local entries whose read flag is false. -/
def counterInv (s : SyncState) : Prop :=
  s.unreadCount = (countUnread s.notifications : Int)

instance (s : SyncState) : Decidable (counterInv s) := by
  unfold counterInv; infer_instance

/-- Entries of `l` that the update for `notification_id` would actually
flip: matching id and still unread. -/
def unreadMatches (notification_id : Nat) (l : List Notification) : Nat :=
  l.countP (fun n => n.id == notification_id && !n.is_read)

/-- Side condition under which one operation preserves `counterInv`
(see the C1 analysis): a pushed notification arrives unread; an
update or a successful pull mark-read flips exactly one local entry;
a resync's reported count matches its item list.  Failed pulls,
token-less calls, the connected (send-only) mark-read branch, and
mark-all-read need no condition. -/
def opOk (s : SyncState) : SyncOp → Prop
  | SyncOp.push n => n.is_read = false
  | SyncOp.update id r =>
      r = true ∧ unreadMatches id s.notifications = 1
  | SyncOp.pullMarkRead tok id resp =>
      tok = true → (s.hasSocket && s.isConnected) = false →
        resp = PullResult.ok → unreadMatches id s.notifications = 1
  | SyncOp.pullMarkAll _ _ => True
  | SyncOp.resync _ resp =>
      match resp with
      | some d => d.unread_count = (countUnread d.items : Int)
      | none => True

instance instDecidableOpOk (s : SyncState) :
    (op : SyncOp) → Decidable (opOk s op)
  | SyncOp.push _ => by unfold opOk; infer_instance
  | SyncOp.update _ _ => by unfold opOk; infer_instance
  | SyncOp.pullMarkRead _ _ _ => by unfold opOk; infer_instance
  | SyncOp.pullMarkAll _ _ => by unfold opOk; infer_instance
  | SyncOp.resync _ (some _) => by unfold opOk; infer_instance
  | SyncOp.resync _ none => by unfold opOk; infer_instance

/-- A trace all of whose steps satisfy `opOk` at their pre-state. -/
def goodTrace (s : SyncState) : List SyncOp → Prop
  | [] => True
  | op :: ops => opOk s op ∧ goodTrace (applyOp op s) ops

instance instDecidableGoodTrace :
    (ops : List SyncOp) → (s : SyncState) → Decidable (goodTrace s ops)
  | [], _ => isTrue trivial
  | op :: ops, s =>
      have : Decidable (goodTrace (applyOp op s) ops) :=
        instDecidableGoodTrace ops (applyOp op s)
      inferInstanceAs (Decidable (_ ∧ _))

/-- The resync responses appearing in an operation list all report a
nonnegative unread count. -/
def resyncNonneg : SyncOp → Prop
  | SyncOp.resync _ (some d) => 0 ≤ d.unread_count
  | _ => True

instance instDecidableResyncNonneg :
    (op : SyncOp) → Decidable (resyncNonneg op)
  | SyncOp.push _ => isTrue trivial
  | SyncOp.update _ _ => isTrue trivial
  | SyncOp.pullMarkRead _ _ _ => isTrue trivial
  | SyncOp.pullMarkAll _ _ => isTrue trivial
  | SyncOp.resync _ (some _) => by unfold resyncNonneg; infer_instance
  | SyncOp.resync _ none => isTrue trivial

/-! ### Helper lemmas -/

theorem countUnread_nil : countUnread [] = 0 := rfl

theorem countUnread_cons (n : Notification) (l : List Notification) :
    countUnread (n :: l) = countUnread l + if n.is_read then 0 else 1 := by
  simp [countUnread, List.countP_cons]
  cases n.is_read <;> simp

/-- Patching the read flag to `true` removes from the unread count
exactly the entries that match the id and were unread. -/
theorem countUnread_patchRead_true (notification_id : Nat)
    (l : List Notification) :
    countUnread (patchRead notification_id true l)
      + unreadMatches notification_id l = countUnread l := by
  induction l with
  | nil => rfl
  | cons n l ih =>
      simp only [patchRead, List.map_cons, unreadMatches,
        List.countP_cons] at *
      by_cases hid : n.id = notification_id
      · cases hr : n.is_read <;>
          simp [hid, hr, countUnread_cons, ← ih, unreadMatches, patchRead] <;>
          omega
      · have hid' : (n.id == notification_id) = false := by
          simp [hid]
        cases hr : n.is_read <;>
          simp [hid, hid', hr, countUnread_cons, ← ih, unreadMatches,
            patchRead] <;> omega

/-- Setting every entry's read flag leaves no unread entries. -/
theorem countUnread_setAllRead (l : List Notification) :
    countUnread (l.map (fun n => { n with is_read := true })) = 0 := by
  induction l with
  | nil => rfl
  | cons n l ih => simp [countUnread_cons, ih]

/-- `patchRead` changes no entry when no entry carries the id. -/
theorem patchRead_eq_of_not_mem (notification_id : Nat) (is_read : Bool)
    (l : List Notification) (h : ∀ n ∈ l, n.id ≠ notification_id) :
    patchRead notification_id is_read l = l := by
  induction l with
  | nil => rfl
  | cons n l ih =>
      have hn : n.id ≠ notification_id := h n (List.mem_cons_self n l)
      simp only [patchRead, List.map_cons, if_neg hn]
      have := ih (fun m hm => h m (List.mem_cons_of_mem n hm))
      simp only [patchRead] at this
      rw [this]

/-- `patchRead` preserves the sequence of ids (no reordering, no
insertion, no removal). -/
theorem patchRead_map_id (notification_id : Nat) (is_read : Bool)
    (l : List Notification) :
    (patchRead notification_id is_read l).map (fun n => n.id)
      = l.map (fun n => n.id) := by
  induction l with
  | nil => rfl
  | cons n l ih =>
      simp only [patchRead, List.map_cons] at *
      by_cases hid : n.id = notification_id <;> simp [hid, ih]

/-- Patching the same id to the same flag twice equals patching once. -/
theorem patchRead_idem (notification_id : Nat) (is_read : Bool)
    (l : List Notification) :
    patchRead notification_id is_read (patchRead notification_id is_read l)
      = patchRead notification_id is_read l := by
  induction l with
  | nil => rfl
  | cons n l ih =>
      simp only [patchRead, List.map_cons] at *
      by_cases hid : n.id = notification_id <;> simp [hid, ih]

/-- One `opOk` step preserves the counter invariant. -/
theorem counterInv_applyOp {s : SyncState} {op : SyncOp}
    (hinv : counterInv s) (hok : opOk s op) :
    counterInv (applyOp op s) := by
  cases op with
  | push n =>
      simp only [opOk] at hok
      simp only [applyOp, handleNewNotification, counterInv] at *
      simp [countUnread_cons, hok, hinv]
  | update id r =>
      obtain ⟨hr, hone⟩ := hok
      subst hr
      have hcnt := countUnread_patchRead_true id s.notifications
      simp only [applyOp, handleNotificationUpdate, counterInv,
        if_true] at *
      rw [hone] at hcnt
      simp only [hinv]
      omega
  | pullMarkRead tok id resp =>
      simp only [applyOp, markAsRead]
      by_cases htok : tok
      · simp only [htok, Bool.not_true, Bool.false_eq_true, if_false]
        cases hconn : s.hasSocket && s.isConnected with
        | true => simp [hinv]
        | false =>
            cases resp with
            | ok =>
                have hone := hok htok hconn rfl
                have hcnt := countUnread_patchRead_true id s.notifications
                rw [hone] at hcnt
                simp only [Bool.false_eq_true, if_false, counterInv] at *
                omega
            | httpError => simpa using hinv
            | networkError => simpa using hinv
      · simp only [Bool.not_eq_true] at htok
        simp [htok, hinv]
  | pullMarkAll tok resp =>
      simp only [applyOp, markAllAsRead]
      by_cases htok : tok
      · cases resp with
        | ok => simp [htok, counterInv, countUnread_setAllRead]
        | httpError => simpa [htok] using hinv
        | networkError => simpa [htok] using hinv
      · simp only [Bool.not_eq_true] at htok
        simp [htok, hinv]
  | resync tok resp =>
      simp only [applyOp, fetchNotifications]
      by_cases htok : tok
      · cases resp with
        | some d =>
            simp only [opOk] at hok
            simp [htok, counterInv, hok]
        | none => simpa [htok] using hinv
      · simp only [Bool.not_eq_true] at htok
        simp [htok, hinv]

/-- Every trace of `opOk` steps preserves the counter invariant. -/
theorem counterInv_runOps {s : SyncState} {ops : List SyncOp}
    (hinv : counterInv s) (hgood : goodTrace s ops) :
    counterInv (runOps s ops) := by
  induction ops generalizing s with
  | nil => simpa [runOps] using hinv
  | cons op ops ih =>
      obtain ⟨hok, hgood'⟩ := hgood
      exact ih (counterInv_applyOp hinv hok) hgood'

/-- Each operation keeps the counter nonnegative, provided a resync
reports a nonnegative count. -/
theorem nonneg_applyOp {s : SyncState} {op : SyncOp}
    (hnn : 0 ≤ s.unreadCount) (hop : resyncNonneg op) :
    0 ≤ (applyOp op s).unreadCount := by
  cases op with
  | push n =>
      simp only [applyOp, handleNewNotification]
      omega
  | update id r =>
      simp only [applyOp, handleNotificationUpdate]
      cases r <;> simp <;> omega
  | pullMarkRead tok id resp =>
      simp only [applyOp, markAsRead]
      by_cases htok : tok
      · simp only [htok, Bool.not_true, Bool.false_eq_true, if_false]
        cases hconn : s.hasSocket && s.isConnected with
        | true => simpa using hnn
        | false =>
            cases resp with
            | ok => simp
            | httpError => simpa using hnn
            | networkError => simpa using hnn
      · simp only [Bool.not_eq_true] at htok
        simp [htok, hnn]
  | pullMarkAll tok resp =>
      simp only [applyOp, markAllAsRead]
      by_cases htok : tok
      · cases resp <;> simp [htok, hnn]
      · simp only [Bool.not_eq_true] at htok
        simp [htok, hnn]
  | resync tok resp =>
      simp only [applyOp, fetchNotifications]
      by_cases htok : tok
      · cases resp with
        | some d =>
            simp only [resyncNonneg] at hop
            simp [htok, hop]
        | none => simp [htok, hnn]
      · simp only [Bool.not_eq_true] at htok
        simp [htok, hnn]

/-! ### Claim C1 -/

/-- Claim C1 (as stated): false.  From a state satisfying the counter
equality, handling a `notification_updated` push for an entry that is
already read decrements the counter without changing the list's unread
count, so the equality is broken after one operation of the claimed
operation set. -/
theorem C1_counterexample :
    counterInv ⟨[⟨1, true, ""⟩, ⟨2, false, ""⟩], 1, false, false⟩ ∧
    ¬ counterInv (runOps ⟨[⟨1, true, ""⟩, ⟨2, false, ""⟩], 1, false, false⟩
        [SyncOp.update 1 true]) := by
  decide

/-- Claim C1 (amended): the local unread counter equals the number of
locally unread entries after every operation sequence, provided each
step satisfies `opOk` at its pre-state — pushed notifications arrive
unread, each `notification_updated` has read flag true and matches
exactly one locally-unread entry, the same for a successful
disconnected pull mark-read, and every successful resync reports a
count equal to the unread count of its items.  Failed pulls, token-less
calls, the connected (send-only) mark-read branch and mark-all-read
need no side condition. -/
theorem C1_counter_invariant_preserved (s : SyncState) (ops : List SyncOp)
    (hinv : counterInv s) (hgood : goodTrace s ops) :
    counterInv (runOps s ops) :=
  counterInv_runOps hinv hgood

/-- Witness for C1: a concrete good trace — push an unread
notification, mark it read via a `notification_updated`, then
mark-all-read — preserves the equality. -/
theorem C1_counter_invariant_preserved_witness :
    counterInv ⟨[⟨1, false, ""⟩], 1, false, false⟩ ∧
    goodTrace ⟨[⟨1, false, ""⟩], 1, false, false⟩
      [SyncOp.push ⟨2, false, "n2"⟩, SyncOp.update 2 true,
        SyncOp.pullMarkAll true PullResult.ok] ∧
    counterInv (runOps ⟨[⟨1, false, ""⟩], 1, false, false⟩
      [SyncOp.push ⟨2, false, "n2"⟩, SyncOp.update 2 true,
        SyncOp.pullMarkAll true PullResult.ok]) :=
  ⟨by decide, by decide,
    C1_counter_invariant_preserved _ _ (by decide) (by decide)⟩

/-! ### Claim C2 -/

/-- Claim C2 (as stated): false.  At a state where the entry named by
the update is already read (no false→true transition is possible), the
handler still decrements the counter from 1 to 0, while the claim
requires it unchanged. -/
theorem C2_counterexample :
    ((⟨[⟨1, true, ""⟩, ⟨2, false, ""⟩], 1, false, false⟩ :
        SyncState).unreadCount = 1) ∧
    (∀ n ∈ ([⟨1, true, ""⟩, ⟨2, false, ""⟩] : List Notification),
        n.id = 1 → n.is_read = true) ∧
    ((handleNotificationUpdate 1 true
        ⟨[⟨1, true, ""⟩, ⟨2, false, ""⟩], 1, false, false⟩).unreadCount
      = 0) := by
  decide

/-- Claim C2 (amended): `handleNotificationUpdate` patches the read
flag of the matching entries in place without reordering (the id
sequence of the list is unchanged), and it decrements the counter
(clamped at zero) whenever the message's read flag is true — regardless
of whether any entry transitioned false→true, exists, or was already
read; a false flag leaves the counter unchanged. -/
theorem C2_update_unconditional_decrement (notification_id : Nat)
    (is_read : Bool) (s : SyncState) :
    (handleNotificationUpdate notification_id is_read s).notifications
        = patchRead notification_id is_read s.notifications ∧
    (handleNotificationUpdate notification_id is_read s).notifications.map
        (fun n => n.id) = s.notifications.map (fun n => n.id) ∧
    (handleNotificationUpdate notification_id is_read s).unreadCount
        = (if is_read then max 0 (s.unreadCount - 1)
           else s.unreadCount) := by
  cases is_read <;> simp [handleNotificationUpdate, patchRead_map_id]

/-! ### Claim C3 -/

/-- Claim C3 (as stated): false.  With two unread notifications and a
disconnected pull mark-read of id 1 followed by the server's
`notification_updated` broadcast for the same id, the counter drops to
0 although only one notification was read — the second delivery
decrements again, so the combined state differs from the state after
the pull alone (counter 1). -/
theorem C3_counterexample :
    ((markAsRead true 1 PullResult.ok
        ⟨[⟨1, false, ""⟩, ⟨2, false, ""⟩], 2, false, false⟩).state.unreadCount
      = 1) ∧
    ((handleNotificationUpdate 1 true
        (markAsRead true 1 PullResult.ok
          ⟨[⟨1, false, ""⟩, ⟨2, false, ""⟩], 2, false, false⟩).state).unreadCount
      = 0) := by
  decide

/-- Claim C3 (amended): after a successful disconnected pull mark-read
of an id, handling the server's `notification_updated` broadcast for
the same id leaves the list unchanged (the list update is idempotent),
but decrements the counter a second time, clamped at zero — the two
deliveries coincide with a single one only when the counter after the
first is already zero. -/
theorem C3_second_delivery_decrements_again (s : SyncState)
    (notification_id : Nat)
    (hconn : (s.hasSocket && s.isConnected) = false) :
    (handleNotificationUpdate notification_id true
        (markAsRead true notification_id PullResult.ok s).state).notifications
      = (markAsRead true notification_id PullResult.ok s).state.notifications ∧
    (handleNotificationUpdate notification_id true
        (markAsRead true notification_id PullResult.ok s).state).unreadCount
      = max 0
          ((markAsRead true notification_id PullResult.ok s).state.unreadCount
            - 1) := by
  simp [markAsRead, hconn, handleNotificationUpdate, patchRead_idem]

/-- Witness for C3 (amended) at a concrete disconnected state. -/
theorem C3_second_delivery_decrements_again_witness :
    (((⟨[⟨1, false, ""⟩], 1, false, false⟩ : SyncState).hasSocket &&
        (⟨[⟨1, false, ""⟩], 1, false, false⟩ : SyncState).isConnected)
      = false) ∧
    ((handleNotificationUpdate 1 true
        (markAsRead true 1 PullResult.ok
          ⟨[⟨1, false, ""⟩], 1, false, false⟩).state).notifications
      = (markAsRead true 1 PullResult.ok
          ⟨[⟨1, false, ""⟩], 1, false, false⟩).state.notifications ∧
    (handleNotificationUpdate 1 true
        (markAsRead true 1 PullResult.ok
          ⟨[⟨1, false, ""⟩], 1, false, false⟩).state).unreadCount
      = max 0
          ((markAsRead true 1 PullResult.ok
            ⟨[⟨1, false, ""⟩], 1, false, false⟩).state.unreadCount - 1)) :=
  ⟨by decide,
    C3_second_delivery_decrements_again
      ⟨[⟨1, false, ""⟩], 1, false, false⟩ 1 (by decide)⟩

/-! ### Claim C4 -/

/-- Claim C4: confirmed.  The `onopen` handler unconditionally pulls
the notification list: for every prior local state, entering the
connected state with a successful pull replaces the entire local list
and counter with the server-returned `items` and `unread_count`, and
sets both connection flags. -/
theorem C4_onopen_full_pull (s : SyncState) (d : PullData) :
    onOpen true (some d) s = ⟨d.items, d.unread_count, true, true⟩ := by
  simp [onOpen, fetchNotifications]

/-! ### Claim C5 -/

/-- Claim C5: refuted by the source.  After an unexpected close
schedules the reconnect timer (whose closure captured the then-current
user), session teardown removes the user and closes the socket but the
timer is still pending — the cleanup effect contains no cancellation —
and when it fires, its stale captured user passes the guard and a new
WebSocket is constructed even though the current user is absent: a
reconnection attempt after the session has ended. -/
theorem C5_reconnect_after_session_end :
    ((sessionEnd (onClose (some "u")
        ⟨⟨[], 0, true, true⟩, some "u", true, [], 0⟩)).pendingTimers
      = [some "u"]) ∧
    ((sessionEnd (onClose (some "u")
        ⟨⟨[], 0, true, true⟩, some "u", true, [], 0⟩)).currentUser
      = none) ∧
    ((fireTimer (sessionEnd (onClose (some "u")
        ⟨⟨[], 0, true, true⟩, some "u", true, [], 0⟩))).wsConstructed
      = 1) := by
  decide

/-! ### Claim C6 -/

/-- Claim C6 (as stated): false.  A failing pull-transport mark-read
leaves the local state unchanged, but the failure is not surfaced to
the caller: the `catch` block logs and swallows it, so the call
resolves normally. -/
theorem C6_counterexample :
    ((markAsRead true 1 PullResult.httpError
        ⟨[⟨1, false, ""⟩], 1, false, false⟩).surfaced = false) ∧
    ((markAsRead true 1 PullResult.httpError
        ⟨[⟨1, false, ""⟩], 1, false, false⟩).state
      = ⟨[⟨1, false, ""⟩], 1, false, false⟩) := by
  decide

/-- Claim C6 (amended): when a disconnected pull-transport mark-read or
a mark-all-read fails (non-ok response or network error), the failure
is caught and logged — not propagated to the caller — and the local
notification list and unread counter are left completely unchanged; the
local update is applied only on a confirmed success. -/
theorem C6_failure_logged_not_surfaced (s : SyncState)
    (notification_id : Nat) (resp : PullResult)
    (hconn : (s.hasSocket && s.isConnected) = false)
    (hresp : resp ≠ PullResult.ok) :
    markAsRead true notification_id resp s = ⟨s, none, true, false⟩ ∧
    markAllAsRead true resp s = ⟨s, none, true, false⟩ := by
  cases resp with
  | ok => exact absurd rfl hresp
  | httpError => simp [markAsRead, markAllAsRead, hconn]
  | networkError => simp [markAsRead, markAllAsRead, hconn]

/-- Witness for C6 (amended) at a concrete failing response. -/
theorem C6_failure_logged_not_surfaced_witness :
    (((⟨[⟨1, false, ""⟩], 1, false, false⟩ : SyncState).hasSocket &&
        (⟨[⟨1, false, ""⟩], 1, false, false⟩ : SyncState).isConnected)
      = false) ∧
    PullResult.networkError ≠ PullResult.ok ∧
    (markAsRead true 1 PullResult.networkError
        ⟨[⟨1, false, ""⟩], 1, false, false⟩
      = ⟨⟨[⟨1, false, ""⟩], 1, false, false⟩, none, true, false⟩ ∧
    markAllAsRead true PullResult.networkError
        ⟨[⟨1, false, ""⟩], 1, false, false⟩
      = ⟨⟨[⟨1, false, ""⟩], 1, false, false⟩, none, true, false⟩) :=
  ⟨by decide, by decide,
    C6_failure_logged_not_surfaced
      ⟨[⟨1, false, ""⟩], 1, false, false⟩ 1 PullResult.networkError
      (by decide) (by decide)⟩

/-! ### Claim C7 -/

/-- Claim C7 (as stated): false in its second half.  A well-formed
message whose type tag is neither `notification` nor
`notification_updated` (here the tag `mark_read`) falls through the
dispatch with no state change and no error signal — it is silently
dropped, not rejected as a malformed-message error. -/
theorem C7_counterexample :
    onMessage (some (InMsg.other "mark_read")) ⟨[], 0, true, true⟩
      = (⟨[], 0, true, true⟩, false) := by
  decide

/-- Claim C7 (amended): a message that fails to decode is logged and
ignored — the local state, including the connection flags, is
unchanged, so the channel stays open; a well-formed message with an
unrecognized type tag is silently ignored: no state change and no error
signal. -/
theorem C7_malformed_logged_unknown_silent (s : SyncState) (tag : String) :
    onMessage none s = (s, true) ∧
    onMessage (some (InMsg.other tag)) s = (s, false) :=
  ⟨rfl, rfl⟩

/-! ### Claim C8 -/

/-- Claim C8: confirmed.  With a socket present and connected (and a
token in storage), `markAsRead` sends a `mark_read` message over the
live channel and returns: the local list, counter and flags are
completely unchanged, nothing is logged, and no error is surfaced —
whatever the pull transport would have answered. -/
theorem C8_connected_markread_sends_only (s : SyncState)
    (notification_id : Nat) (resp : PullResult)
    (hsock : s.hasSocket = true) (hconn : s.isConnected = true) :
    markAsRead true notification_id resp s
      = ⟨s, some (OutMsg.markRead notification_id), false, false⟩ := by
  simp [markAsRead, hsock, hconn]

/-- Witness for C8 at a concrete connected state. -/
theorem C8_connected_markread_sends_only_witness :
    (⟨[⟨1, false, ""⟩], 1, true, true⟩ : SyncState).hasSocket = true ∧
    (⟨[⟨1, false, ""⟩], 1, true, true⟩ : SyncState).isConnected = true ∧
    markAsRead true 1 PullResult.ok ⟨[⟨1, false, ""⟩], 1, true, true⟩
      = ⟨⟨[⟨1, false, ""⟩], 1, true, true⟩, some (OutMsg.markRead 1),
          false, false⟩ :=
  ⟨rfl, rfl,
    C8_connected_markread_sends_only
      ⟨[⟨1, false, ""⟩], 1, true, true⟩ 1 PullResult.ok rfl rfl⟩

/-! ### Claim C9 -/

/-- Claim C9: confirmed.  A `notification_updated` with read flag true
whose id matches no local entry leaves the list (and the flags)
unchanged but still decrements the counter, clamped at zero — the
decrement is not conditioned on the id being present. -/
theorem C9_update_unknown_id_still_decrements (s : SyncState)
    (notification_id : Nat)
    (habs : ∀ n ∈ s.notifications, n.id ≠ notification_id) :
    handleNotificationUpdate notification_id true s
      = { s with unreadCount := max 0 (s.unreadCount - 1) } := by
  simp [handleNotificationUpdate,
    patchRead_eq_of_not_mem _ _ _ habs]

/-- Witness for C9: id 5 matches no entry; the list survives and the
counter drops from 1 to 0. -/
theorem C9_update_unknown_id_still_decrements_witness :
    (∀ n ∈ ([⟨1, false, ""⟩] : List Notification), n.id ≠ 5) ∧
    handleNotificationUpdate 5 true ⟨[⟨1, false, ""⟩], 1, false, false⟩
      = ⟨[⟨1, false, ""⟩], 0, false, false⟩ :=
  ⟨by decide, by
    rw [C9_update_unknown_id_still_decrements
      ⟨[⟨1, false, ""⟩], 1, false, false⟩ 5 (by decide)]
    decide⟩

/-! ### Claim C10 -/

/-- Claim C10: confirmed.  Starting from a nonnegative counter, every
operation sequence keeps the counter nonnegative, provided each resync
response reports a nonnegative count: pushes increment, every decrement
path is clamped at zero, and mark-all-read sets it to exactly zero. -/
theorem C10_counter_nonneg : ∀ (ops : List SyncOp) (s : SyncState),
    0 ≤ s.unreadCount → (∀ op ∈ ops, resyncNonneg op) →
    0 ≤ (runOps s ops).unreadCount := by
  intro ops
  induction ops with
  | nil => intro s hnn _; simpa [runOps] using hnn
  | cons op ops ih =>
      intro s hnn hops
      exact ih _
        (nonneg_applyOp hnn (hops op (List.mem_cons_self op ops)))
        (fun o ho => hops o (List.mem_cons_of_mem op ho))

/-- Witness for C10: from a zero counter, an update for an absent id
(clamped decrement) followed by a resync reporting zero keeps the
counter nonnegative. -/
theorem C10_counter_nonneg_witness :
    (0 ≤ (⟨[], 0, false, false⟩ : SyncState).unreadCount) ∧
    (∀ op ∈ [SyncOp.update 1 true,
        SyncOp.resync true (some ⟨[⟨1, true, ""⟩], 0⟩)], resyncNonneg op) ∧
    0 ≤ (runOps ⟨[], 0, false, false⟩
      [SyncOp.update 1 true,
        SyncOp.resync true (some ⟨[⟨1, true, ""⟩], 0⟩)]).unreadCount :=
  ⟨by decide, by decide,
    C10_counter_nonneg _ _ (by decide) (by decide)⟩

end NotificationSync
